import Mathlib

/-!
Shallow embedding of the price-history store and alert-evaluation engine of
the One Piece TCG price monitor (src/models.py, src/price_tracker.py,
src/alert_system.py), together with theorems checking the specification's
claims against it.

Modelling conventions:
* Python `float` prices are modelled as `ℚ` (the claims are about exact
  comparisons and percentage formulas, not rounding).
* `datetime` values are modelled as integer epoch seconds (`ℤ`);
  `timedelta(hours=h)` is `h * 3600`, `timedelta(days=d)` is `d * 86400`.
  Each call takes its clock reading `now` as an explicit parameter.
* Python `Optional[...]` is `Option ...`; Python truthiness of an optional
  float (`None` and `0.0` are falsy) is the function `truthyQ`.
* The per-card JSON history files are a map `Files` from card identifier to
  an optional list of raw records; a raw record is either a well-formed
  record (`RawRecord.ok`, carrying the observation it parses to) or a
  malformed one (`RawRecord.bad`, whose parse raises).  File-write success
  is an explicit `writeOk : Bool` oracle for the I/O outcome.
* Alert reason strings are abstracted to tags (`Reason`): the code appends
  one formatted string per fired rule; the tag records which rule fired,
  the order of appends is preserved.
-/

/-- A dictionary with string keys, as used for `self.price_history` and
`self.last_alert_times`; `none` models an absent key. -/
def updateMap {α : Type} (f : String → Option α) (k : String) (v : α) :
    String → Option α :=
  fun q => if q = k then some v else f q

/-- Python truthiness of an `Optional[float]`: `None` and `0.0` are falsy. -/
def truthyQ : Option ℚ → Bool
  | none => false
  | some x => decide (x ≠ 0)

/-- models.py `Card` (dataclass). -/
structure Card where
  name : String
  set : String
  rarity : String
  condition : String := "Near Mint"
  language : String := "English"
  number : Option String := none
  target_price : Option ℚ := none
  enabled : Bool := true
deriving DecidableEq

/-- `p.replace(" ", "_")` for the single-character pattern used by
`Card.get_identifier`: every space character becomes an underscore. -/
def replaceSpaces (s : String) : String :=
  String.mk (s.data.map fun c => if c = ' ' then '_' else c)

/-- `"_".join(parts)`. -/
def joinUnderscore : List String → String
  | [] => ""
  | [p] => p
  | p :: ps => p ++ "_" ++ joinUnderscore ps

/-- models.py `Card.get_identifier`: `parts = [name, set, rarity, language]`;
`if self.number: parts.insert(2, self.number)` (truthiness: `None` and the
empty string are falsy, and `insert(2, ...)` places the number between the
set and the rarity); then join the space-normalized parts with `_`. -/
def Card.get_identifier (c : Card) : String :=
  let parts : List String :=
    match c.number with
    | some n =>
        if n ≠ "" then [c.name, c.set, n, c.rarity, c.language]
        else [c.name, c.set, c.rarity, c.language]
    | none => [c.name, c.set, c.rarity, c.language]
  joinUnderscore (parts.map replaceSpaces)

/-- models.py `PriceData` (dataclass). -/
structure PriceData where
  card_id : String
  timestamp : ℤ
  market_price : Option ℚ := none
  lowest_price : Option ℚ := none
  listing_count : ℤ := 0
  tcgplayer_url : Option String := none
deriving DecidableEq

/-- models.py `PriceData.get_effective_price`:
`return self.market_price or self.lowest_price` — Python `or` returns the
left operand when it is truthy, else the right operand. -/
def PriceData.get_effective_price (p : PriceData) : Option ℚ :=
  if truthyQ p.market_price then p.market_price else p.lowest_price

/-- models.py `AlertThresholds` (dataclass). -/
structure AlertThresholds where
  price_drop_percent : ℚ := 15
  drop_timeframe_hours : ℤ := 24
  low_inventory_threshold : ℤ := 5
  spike_ignore_percent : ℚ := 30
  spike_ignore_hours : ℤ := 6
deriving DecidableEq

/-- Tag identifying which alert rule fired (abstraction of the formatted
reason strings appended in `AlertSystem.check_alert_conditions`). -/
inductive Reason where
  | targetReached
  | percentDrop
  | thirtyDayLow
  | lowInventory
deriving DecidableEq

/-- models.py `PriceAlert` (dataclass). -/
structure PriceAlert where
  card : Card
  current_price : PriceData
  previous_price : Option PriceData := none
  alert_reasons : List Reason
  timestamp : ℤ
deriving DecidableEq

/-- One record of a persisted per-card history file: either a well-formed
record (carrying the `PriceData` its fields parse to) or a malformed one,
whose parse (`item['card_id']` / `datetime.fromisoformat(...)`) raises. -/
inductive RawRecord where
  | ok (r : PriceData) : RawRecord
  | bad : RawRecord
deriving DecidableEq

/-- The persisted per-card history files (`data/{card_id}_history.json`):
`none` models a file that does not exist. -/
abbrev Files := String → Option (List RawRecord)

/-- price_tracker.py `PriceTracker.__init__`: the in-memory cache
`self.price_history : Dict[str, List[PriceData]]`. -/
structure TrackerState where
  price_history : String → Option (List PriceData)

/-- The parse loop of `PriceTracker.load_history`: records are parsed in
order; a malformed record raises, aborting the loop (the surrounding
`except` then discards everything). -/
def parseAll : List RawRecord → Option (List PriceData)
  | [] => some []
  | RawRecord.ok x :: rest =>
      match parseAll rest with
      | some xs => some (x :: xs)
      | none => none
  | RawRecord.bad :: _ => none

/-- One step of `history.sort(key=lambda x: x.timestamp, reverse=True)`:
insert into a newest-first sorted list. -/
def insertDesc (p : PriceData) : List PriceData → List PriceData
  | [] => [p]
  | q :: qs => if q.timestamp ≤ p.timestamp then p :: q :: qs
               else q :: insertDesc p qs

/-- `history.sort(key=lambda x: x.timestamp, reverse=True)`: sort by
timestamp, newest first. -/
def sortNewestFirst : List PriceData → List PriceData
  | [] => []
  | p :: ps => insertDesc p (sortNewestFirst ps)

/-- price_tracker.py `PriceTracker.load_history`: returns the loaded
newest-first history and the updated tracker state.  A missing file yields
`[]` without touching the cache; any exception while parsing (a malformed
record) is caught by the surrounding `except`, which yields `[]` without
touching the cache; otherwise the sorted history is returned and cached. -/
def load_history (st : TrackerState) (files : Files) (card : Card) :
    List PriceData × TrackerState :=
  let cid := card.get_identifier
  match files cid with
  | none => ([], st)
  | some raws =>
      match parseAll raws with
      | none => ([], st)
      | some parsed =>
          let history := sortNewestFirst parsed
          (history, ⟨updateMap st.price_history cid history⟩)

/-- The retention filter of `PriceTracker.save_price_data`:
`datetime.fromisoformat(entry['timestamp']) > cutoff_date` with
`cutoff_date = now - timedelta(days=90)`.  (Only reached when every record
has a readable timestamp; on a malformed record the comprehension raises.) -/
def keepRecent (now : ℤ) : RawRecord → Bool
  | RawRecord.ok x => decide (now - 90 * 86400 < x.timestamp)
  | RawRecord.bad => false

/-- Whether a raw record parses (used to model that the retention filter in
`save_price_data` raises on a malformed record, aborting the save). -/
def rawOk : RawRecord → Bool
  | RawRecord.ok _ => true
  | RawRecord.bad => false

/-- price_tracker.py `PriceTracker.save_price_data`: read the existing raw
records (missing file → `[]`), append the serialized new entry, drop entries
older than 90 days, write the file back, then prepend the new observation to
the in-memory cache.  The whole body is inside `try/except`: if the filter
raises on a malformed existing record, or if the write fails
(`writeOk = false`), the exception is logged and *nothing* changes — in
particular the cache update, which sits after the write, does not happen. -/
def save_price_data (st : TrackerState) (files : Files) (now : ℤ)
    (writeOk : Bool) (p : PriceData) : TrackerState × Files :=
  let cid := p.card_id
  let data := (files cid).getD []
  let dataNew := data ++ [RawRecord.ok p]
  if dataNew.all rawOk then
    let filtered := dataNew.filter (keepRecent now)
    if writeOk then
      let cache := (st.price_history cid).getD []
      (⟨updateMap st.price_history cid (p :: cache)⟩,
       updateMap files cid filtered)
    else (st, files)
  else (st, files)

/-- price_tracker.py `PriceTracker.get_latest_price`: in-memory cache head
if the key is present with a non-empty list, else load from disk and return
the head of the result. -/
def get_latest_price (st : TrackerState) (files : Files) (card : Card) :
    Option PriceData × TrackerState :=
  let cid := card.get_identifier
  match st.price_history cid with
  | some (h :: _) => (some h, st)
  | _ =>
      let loaded := load_history st files card
      (loaded.1.head?, loaded.2)

/-- `abs((x.timestamp - target_time).total_seconds())`. -/
def timeDist (target : ℤ) (x : PriceData) : ℤ :=
  |x.timestamp - target|

/-- Python `min(history, key=...)`: fold keeping the current holder unless
the new element's key is strictly smaller, so the first element attaining
the minimal key wins. -/
def pyMinBy (key : PriceData → ℤ) (x : PriceData) (xs : List PriceData) :
    PriceData :=
  xs.foldl (fun b a => if key a < key b then a else b) x

/-- The pure core of `PriceTracker.get_price_at_timeframe` over a cached
history list: `min(history, key=lambda x: abs((x.timestamp - target_time)
.total_seconds()))`, `none` on an empty history. -/
def nearestInCache (now hours_ago : ℤ) : List PriceData → Option PriceData
  | [] => none
  | x :: xs => some (pyMinBy (timeDist (now - hours_ago * 3600)) x xs)

/-- price_tracker.py `PriceTracker.get_price_at_timeframe`: hydrate the
cache if the key is absent, return `None` if the key is still absent or the
cached list is empty, else the cached observation closest to
`now - timedelta(hours=hours_ago)`. -/
def get_price_at_timeframe (st : TrackerState) (files : Files) (now : ℤ)
    (card : Card) (hours_ago : ℤ) : Option PriceData × TrackerState :=
  let cid := card.get_identifier
  let st1 := match st.price_history cid with
    | none => (load_history st files card).2
    | some _ => st
  match st1.price_history cid with
  | none => (none, st1)
  | some hist => (nearestInCache now hours_ago hist, st1)

/-- The pure core of `PriceTracker.get_30_day_low` over a cached history
list: effective prices of observations strictly newer than `now - 30 days`
that have a defined effective price, then `min(...)`, `none` if none
qualify. -/
def lowInCache (now : ℤ) (hist : List PriceData) : Option ℚ :=
  let recent := hist.filterMap fun pd =>
    if now - 30 * 86400 < pd.timestamp then pd.get_effective_price else none
  match recent with
  | [] => none
  | q :: qs => some (qs.foldl min q)

/-- price_tracker.py `PriceTracker.get_30_day_low`: hydrate the cache if the
key is absent, return `None` if the key is still absent or the cached list
is empty, else the minimum effective price over the trailing 30 days. -/
def get_30_day_low (st : TrackerState) (files : Files) (now : ℤ)
    (card : Card) : Option ℚ × TrackerState :=
  let cid := card.get_identifier
  let st1 := match st.price_history cid with
    | none => (load_history st files card).2
    | some _ => st
  match st1.price_history cid with
  | none => (none, st1)
  | some [] => (none, st1)
  | some hist => (lowInCache now hist, st1)

/-- alert_system.py `AlertSystem`: the price tracker it owns plus the
per-card cooldown map `self.last_alert_times`. -/
structure AlertState where
  tracker : TrackerState
  last_alert_times : String → Option ℤ

/-- The cooldown gate of `AlertSystem.check_alert_conditions` (lines 36-42):
a prior alert exists and `now - last < timedelta(hours=cooldown_hours)`. -/
def cooldown_active (last : Option ℤ) (now cooldown_hours : ℤ) : Bool :=
  match last with
  | some t => decide (now - t < cooldown_hours * 3600)
  | none => false

/-- Check 1 of `check_alert_conditions`:
`if card.target_price and current <= card.target_price` (truthiness: a
`None` or zero target never fires). -/
def check_target (target : Option ℚ) (current : ℚ) : List Reason :=
  match target with
  | some t => if t ≠ 0 ∧ current ≤ t then [Reason.targetReached] else []
  | none => []

/-- Check 2 of `check_alert_conditions`: with `past_price` the effective
price of the observation nearest to `now - drop_timeframe_hours`, fire when
`past_price` is truthy and `(past - current) / past * 100 >=
price_drop_percent`. -/
def check_percent_drop (th : AlertThresholds) (pastOpt : Option PriceData)
    (current : ℚ) : List Reason :=
  match pastOpt with
  | none => []
  | some pd =>
      match pd.get_effective_price with
      | none => []
      | some past =>
          if past ≠ 0 ∧ th.price_drop_percent ≤ (past - current) / past * 100
          then [Reason.percentDrop] else []

/-- Check 3 of `check_alert_conditions`:
`if thirty_day_low and current <= thirty_day_low` (truthiness: an undefined
or zero 30-day low never fires). -/
def check_thirty_day_low (lowOpt : Option ℚ) (current : ℚ) : List Reason :=
  match lowOpt with
  | none => []
  | some low =>
      if low ≠ 0 ∧ current ≤ low then [Reason.thirtyDayLow] else []

/-- Check 4 of `check_alert_conditions`:
`listing_count > 0 and listing_count <= low_inventory_threshold`. -/
def check_low_inventory (th : AlertThresholds) (listing_count : ℤ) :
    List Reason :=
  if 0 < listing_count ∧ listing_count ≤ th.low_inventory_threshold
  then [Reason.lowInventory] else []

/-- The tail of `AlertSystem._is_price_spike` after the current price has
been unwrapped: `if not past_price or past_price == 0: return False`, then
`spike_percent = ((current - past_price) / past_price) * 100` and compare
against `spike_ignore_percent`. -/
def spike_decision (th : AlertThresholds) (current : ℚ)
    (pastOpt : Option PriceData) : Bool :=
  match pastOpt with
  | none => false
  | some pd =>
      match pd.get_effective_price with
      | none => false
      | some past =>
          if past = 0 then false
          else decide (th.spike_ignore_percent ≤ (current - past) / past * 100)

/-- alert_system.py `AlertSystem._is_price_spike`: `if not current: return
False` (an undefined or zero current effective price never counts as a
spike), then look up the observation nearest to `now - spike_ignore_hours`
and decide on the spike percentage. -/
def is_price_spike (th : AlertThresholds) (st : TrackerState) (files : Files)
    (now : ℤ) (card : Card) (current_price : PriceData) :
    Bool × TrackerState :=
  match current_price.get_effective_price with
  | none => (false, st)
  | some current =>
      if current = 0 then (false, st)
      else
        let look := get_price_at_timeframe st files now card
          th.spike_ignore_hours
        (spike_decision th current look.1, look.2)

/-- `_is_price_spike` over a cached history list (pure). -/
def spikeInCache (th : AlertThresholds) (now : ℤ) (hist : List PriceData)
    (current_price : PriceData) : Bool :=
  match current_price.get_effective_price with
  | none => false
  | some current =>
      if current = 0 then false
      else spike_decision th current
        (nearestInCache now th.spike_ignore_hours hist)

/-- alert_system.py `AlertSystem.check_alert_conditions`: cooldown gate;
require an effective price; evaluate the four rules in order (threading the
tracker cache through the temporal queries); anti-FOMO spike suppression
(returning `None` without updating the cooldown); if any reasons were
collected, build the `PriceAlert` (previous price is the store's latest
unless it equals the current observation) and record `now` as the card's
last alert time. -/
def check_alert_conditions (th : AlertThresholds) (files : Files) (now : ℤ)
    (s : AlertState) (card : Card) (current_price : PriceData)
    (cooldown_hours : ℤ) : Option PriceAlert × AlertState :=
  let cid := card.get_identifier
  if cooldown_active (s.last_alert_times cid) now cooldown_hours then
    (none, s)
  else
    match current_price.get_effective_price with
    | none => (none, s)
    | some current =>
        let look1 := get_price_at_timeframe s.tracker files now card
          th.drop_timeframe_hours
        let look2 := get_30_day_low look1.2 files now card
        let reasons :=
          check_target card.target_price current
            ++ check_percent_drop th look1.1 current
            ++ check_thirty_day_low look2.1 current
            ++ check_low_inventory th current_price.listing_count
        let spike := is_price_spike th look2.2 files now card current_price
        if spike.1 then (none, { s with tracker := spike.2 })
        else if reasons.isEmpty then (none, { s with tracker := spike.2 })
        else
          let latest := get_latest_price spike.2 files card
          let previous :=
            if latest.1 = some current_price then none else latest.1
          (some { card := card, current_price := current_price,
                  previous_price := previous, alert_reasons := reasons,
                  timestamp := now },
           { tracker := latest.2,
             last_alert_times := updateMap s.last_alert_times cid now })

/-- The effective-price rule in the words of the specification, as amended:
market price whenever present and nonzero, else the lowest-listing price
whenever present, else undefined. -/
def effective_price_spec (market lowest : Option ℚ) : Option ℚ :=
  match market with
  | some m => if m = 0 then lowest else some m
  | none => lowest

/-- The observations a list of raw records parses to, ignoring malformed
ones (used to state what a fully well-formed file contains). -/
def parsedOf (raws : List RawRecord) : List PriceData :=
  raws.filterMap fun r =>
    match r with
    | RawRecord.ok x => some x
    | RawRecord.bad => none

/-! ## Concrete fixtures used by the claim-level counterexamples and
witnesses.  Timestamps are epoch seconds around `10000000`; thresholds not
mentioned take the dataclass defaults from `models.py`. -/

def c1Card : Card := { name := "A", set := "S", rarity := "R" }

def c1Now : ℤ := 10000000

def c1Th : AlertThresholds := { spike_ignore_percent := -100 }

def c1Past : PriceData :=
  { card_id := "A_S_R_English", timestamp := c1Now - 21600,
    market_price := some 10 }

def c1Cur : PriceData :=
  { card_id := "A_S_R_English", timestamp := c1Now,
    lowest_price := some 0, listing_count := 1 }

def c1S : AlertState :=
  ⟨⟨fun k => if k = c1Card.get_identifier then some [c1Past] else none⟩,
   fun _ => none⟩

def c1Files : Files := fun _ => none

def c1WTh : AlertThresholds := {}

def c1WPast : PriceData :=
  { card_id := "A_S_R_English", timestamp := c1Now - 21600,
    market_price := some 100 }

def c1WCur : PriceData :=
  { card_id := "A_S_R_English", timestamp := c1Now,
    market_price := some 140, listing_count := 1 }

def c1WS : AlertState :=
  ⟨⟨fun k => if k = c1Card.get_identifier then some [c1WPast] else none⟩,
   fun _ => none⟩

def c2Card : Card :=
  { name := "B", set := "S", rarity := "R", target_price := some 50 }

def c2T0 : ℤ := 10000000

def c2Past : PriceData :=
  { card_id := "B_S_R_English", timestamp := c2T0 - 3600,
    market_price := some 45 }

def c2Cur : PriceData :=
  { card_id := "B_S_R_English", timestamp := c2T0, market_price := some 45 }

def c2S : AlertState :=
  ⟨⟨fun k => if k = c2Card.get_identifier then some [c2Past] else none⟩,
   fun _ => none⟩

def c2Th : AlertThresholds := {}

def c2Files : Files := fun _ => none

def c2Alert : PriceAlert :=
  { card := c2Card, current_price := c2Cur, previous_price := some c2Past,
    alert_reasons := [Reason.targetReached, Reason.thirtyDayLow],
    timestamp := c2T0 }

def c3Card : Card := { name := "C3", set := "S", rarity := "R" }

def c3Rec : PriceData :=
  { card_id := "C3_S_R_English", timestamp := 1000, market_price := some 10 }

def c3Files : Files :=
  fun k => if k = "C3_S_R_English" then
    some [RawRecord.ok c3Rec, RawRecord.bad] else none

def c3St : TrackerState := ⟨fun _ => none⟩

def c4Card : Card := { name := "C4", set := "S", rarity := "R" }

def c4P : PriceData :=
  { card_id := "C4_S_R_English", timestamp := 5000, market_price := some 7 }

def c4St : TrackerState :=
  ⟨fun k => if k = "C4_S_R_English" then some [] else none⟩

def c4Files : Files := fun _ => none

def c7Card : Card := { name := "C7", set := "S", rarity := "R" }

def c7Now : ℤ := 10000000

def c7M1 : PriceData :=
  { card_id := "C7_S_R_English", timestamp := c7Now - 3600,
    market_price := some 50 }

def c7M5 : PriceData :=
  { card_id := "C7_S_R_English", timestamp := c7Now - 18000,
    market_price := some 40 }

def c7M10 : PriceData :=
  { card_id := "C7_S_R_English", timestamp := c7Now - 36000,
    market_price := some 60 }

def c7St : TrackerState :=
  ⟨fun k => if k = "C7_S_R_English" then some [c7M1, c7M5, c7M10] else none⟩

def c7Files : Files := fun _ => none

def c8Card : Card := { name := "C8", set := "S", rarity := "R" }

def c8Now : ℤ := 10000000

def c8Q1 : PriceData :=
  { card_id := "C8_S_R_English", timestamp := c8Now - 7200,
    market_price := some 52 }

def c8Q2 : PriceData :=
  { card_id := "C8_S_R_English", timestamp := c8Now - 18000,
    market_price := some 48 }

def c8Q3 : PriceData :=
  { card_id := "C8_S_R_English", timestamp := c8Now - 28800,
    market_price := some 55 }

def c8Q4 : PriceData :=
  { card_id := "C8_S_R_English", timestamp := c8Now - 72000,
    market_price := some 48 }

def c8Cur : PriceData :=
  { card_id := "C8_S_R_English", timestamp := c8Now, market_price := some 48 }

def c8S : AlertState :=
  ⟨⟨fun k => if k = c8Card.get_identifier then
      some [c8Q1, c8Q2, c8Q3, c8Q4] else none⟩,
   fun _ => none⟩

def c8Th : AlertThresholds := {}

def c8Files : Files := fun _ => none

def c8Alert : PriceAlert :=
  { card := c8Card, current_price := c8Cur, previous_price := some c8Q1,
    alert_reasons := [Reason.thirtyDayLow], timestamp := c8Now }

def c8zCard : Card := { name := "C8Z", set := "S", rarity := "R" }

def c8zRec : PriceData :=
  { card_id := "C8Z_S_R_English", timestamp := c8Now - 3600,
    lowest_price := some 0 }

def c8zCur : PriceData :=
  { card_id := "C8Z_S_R_English", timestamp := c8Now,
    lowest_price := some 0 }

def c8zS : AlertState :=
  ⟨⟨fun k => if k = c8zCard.get_identifier then some [c8zRec] else none⟩,
   fun _ => none⟩

def c9Card : Card := { name := "C9", set := "S", rarity := "R" }

def c9Now : ℤ := 10000000

def c9Old1 : PriceData :=
  { card_id := "C9_S_R_English", timestamp := 2000000,
    market_price := some 3 }

def c9Old2 : PriceData :=
  { card_id := "C9_S_R_English", timestamp := 9000000,
    market_price := some 4 }

def c9P : PriceData :=
  { card_id := "C9_S_R_English", timestamp := 10000000,
    market_price := some 5 }

def c9Files : Files :=
  fun k => if k = "C9_S_R_English" then
    some [RawRecord.ok c9Old1, RawRecord.ok c9Old2] else none

def c9St : TrackerState := ⟨fun _ => none⟩

def c10Card : Card :=
  { name := "C10", set := "S", rarity := "R", target_price := some 50 }

def c10Now : ℤ := 10000000

def c10Cur : PriceData :=
  { card_id := "C10_S_R_English", timestamp := c10Now,
    market_price := some 45 }

def c10S : AlertState :=
  ⟨⟨fun k => if k = c10Card.get_identifier then some [c10Cur] else none⟩,
   fun _ => none⟩

def c10Th : AlertThresholds := {}

def c10Files : Files := fun _ => none

def c10Alert : PriceAlert :=
  { card := c10Card, current_price := c10Cur, previous_price := none,
    alert_reasons := [Reason.targetReached, Reason.thirtyDayLow],
    timestamp := c10Now }

def c5Card : Card :=
  { name := "Monkey D Luffy", set := "OP01", rarity := "SR",
    number := some ("OP01-003") }

def c5EmptyCard : Card :=
  { name := "C5", set := "S", rarity := "R", number := some ("") }

def c6PD : PriceData :=
  { card_id := "x", timestamp := 0, market_price := some 0,
    lowest_price := some 5 }

/-! ## Lemmas: temporal queries on an already-hydrated cache -/

theorem gpat_cached {st : TrackerState} {card : Card} {L : List PriceData}
    (files : Files) (now hours_ago : ℤ)
    (h : st.price_history card.get_identifier = some L) :
    get_price_at_timeframe st files now card hours_ago =
      (nearestInCache now hours_ago L, st) := by
  simp [get_price_at_timeframe, h]

theorem g30_cached {st : TrackerState} {card : Card} {L : List PriceData}
    (files : Files) (now : ℤ)
    (h : st.price_history card.get_identifier = some L) :
    get_30_day_low st files now card = (lowInCache now L, st) := by
  cases L <;> simp [get_30_day_low, h, lowInCache]

theorem latest_cached {st : TrackerState} {card : Card} {q : PriceData}
    {rest : List PriceData} (files : Files)
    (h : st.price_history card.get_identifier = some (q :: rest)) :
    get_latest_price st files card = (some q, st) := by
  simp [get_latest_price, h]

theorem spike_cached {st : TrackerState} {card : Card} {L : List PriceData}
    (th : AlertThresholds) (files : Files) (now : ℤ) (cur : PriceData)
    (h : st.price_history card.get_identifier = some L) :
    is_price_spike th st files now card cur =
      (spikeInCache th now L cur, st) := by
  cases hc : cur.get_effective_price
  · simp [is_price_spike, spikeInCache, hc]
  · simp only [is_price_spike, spikeInCache, hc,
      gpat_cached files now th.spike_ignore_hours h]
    split <;> rfl

/-- `check_alert_conditions` over a non-empty hydrated cache: every temporal
query is a pure read of the cached list and the tracker state never
changes. -/
theorem check_cached {s : AlertState} {card : Card} {q : PriceData}
    {rest : List PriceData} (th : AlertThresholds) (files : Files)
    (now : ℤ) (cur : PriceData) (cd : ℤ)
    (h : s.tracker.price_history card.get_identifier = some (q :: rest)) :
    check_alert_conditions th files now s card cur cd =
      if cooldown_active (s.last_alert_times card.get_identifier) now cd then
        (none, s)
      else
        match cur.get_effective_price with
        | none => (none, s)
        | some current =>
            let reasons :=
              check_target card.target_price current
                ++ check_percent_drop th
                    (nearestInCache now th.drop_timeframe_hours (q :: rest))
                    current
                ++ check_thirty_day_low (lowInCache now (q :: rest)) current
                ++ check_low_inventory th cur.listing_count
            if spikeInCache th now (q :: rest) cur then (none, s)
            else if reasons.isEmpty then (none, s)
            else
              (some { card := card, current_price := cur,
                      previous_price :=
                        if (some q : Option PriceData) = some cur then none
                        else some q,
                      alert_reasons := reasons, timestamp := now },
               { tracker := s.tracker,
                 last_alert_times :=
                   updateMap s.last_alert_times card.get_identifier now }) := by
  simp only [check_alert_conditions, gpat_cached files now
    th.drop_timeframe_hours h, g30_cached files now h,
    spike_cached th files now cur h, latest_cached files h]

/-- If the cooldown gate is active the call returns `None` at once with the
state untouched. -/
theorem check_blocked {s : AlertState} {card : Card}
    (th : AlertThresholds) (files : Files) (now : ℤ) (cur : PriceData)
    (cd : ℤ)
    (h : cooldown_active (s.last_alert_times card.get_identifier) now cd =
      true) :
    check_alert_conditions th files now s card cur cd = (none, s) := by
  simp [check_alert_conditions, h]

/-- Every call to `check_alert_conditions` either returns `None` or has
recorded `now` as the card's last alert time. -/
theorem check_result_cases (th : AlertThresholds) (files : Files) (now : ℤ)
    (s : AlertState) (card : Card) (cur : PriceData) (cd : ℤ) :
    (check_alert_conditions th files now s card cur cd).1 = none ∨
    (check_alert_conditions th files now s card cur cd).2.last_alert_times =
      updateMap s.last_alert_times card.get_identifier now := by
  simp only [check_alert_conditions]
  split
  · exact Or.inl rfl
  · split
    · exact Or.inl rfl
    · split
      · exact Or.inl rfl
      · split
        · exact Or.inl rfl
        · exact Or.inr rfl

/-! ## Lemmas: parsing, sorting, and Python `min` -/

theorem parseAll_bad : ∀ raws, RawRecord.bad ∈ raws → parseAll raws = none
  | [], h => by cases h
  | RawRecord.ok x :: rest, h => by
      have hrest : RawRecord.bad ∈ rest := by
        rcases List.mem_cons.mp h with h1 | h1
        · simp at h1
        · exact h1
      simp [parseAll, parseAll_bad rest hrest]
  | RawRecord.bad :: _, _ => by simp [parseAll]

theorem parseAll_map_ok : ∀ xs : List PriceData,
    parseAll (xs.map RawRecord.ok) = some xs
  | [] => rfl
  | x :: xs => by simp [parseAll, parseAll_map_ok xs]

theorem allOk_eq_map : ∀ raws : List RawRecord,
    (∀ r ∈ raws, rawOk r = true) → raws = (parsedOf raws).map RawRecord.ok
  | [], _ => rfl
  | RawRecord.ok x :: rest, h => by
      have := allOk_eq_map rest (fun r hr => h r (List.mem_cons_of_mem _ hr))
      simp only [parsedOf] at this ⊢
      simp [List.filterMap_cons, ← this]
  | RawRecord.bad :: rest, h => by
      have := h RawRecord.bad (List.mem_cons_self _ _)
      simp [rawOk] at this

theorem filter_keepRecent_map_ok (now : ℤ) : ∀ xs : List PriceData,
    (xs.map RawRecord.ok).filter (keepRecent now) =
      (xs.filter fun x => decide (now - 90 * 86400 < x.timestamp)).map
        RawRecord.ok
  | [] => rfl
  | x :: xs => by
      simp only [List.map_cons, List.filter_cons, keepRecent]
      split <;> simp [filter_keepRecent_map_ok now xs]

theorem mem_insertDesc (p a : PriceData) :
    ∀ l, a ∈ insertDesc p l ↔ a = p ∨ a ∈ l
  | [] => by simp [insertDesc]
  | q :: qs => by
      simp only [insertDesc]
      split
      · simp [List.mem_cons]
      · simp only [List.mem_cons, mem_insertDesc p a qs]
        tauto

theorem mem_sortNewestFirst (a : PriceData) :
    ∀ l, a ∈ sortNewestFirst l ↔ a ∈ l
  | [] => by simp [sortNewestFirst]
  | p :: ps => by
      simp [sortNewestFirst, mem_insertDesc, mem_sortNewestFirst a ps]

/-- Python `min(x :: xs, key=...)` keeps the first element attaining the
minimal key: the result is a member, its key is minimal, and every element
strictly before it in the list has a strictly larger key. -/
theorem pyMinBy_spec (key : PriceData → ℤ) (xs : List PriceData)
    (x : PriceData) :
    (pyMinBy key x xs = x ∨ pyMinBy key x xs ∈ xs) ∧
    key (pyMinBy key x xs) ≤ key x ∧
    (∀ y ∈ xs, key (pyMinBy key x xs) ≤ key y) ∧
    (pyMinBy key x xs = x ∨
      (key (pyMinBy key x xs) < key x ∧
        ∃ i, ∃ hi : i < xs.length, xs.get ⟨i, hi⟩ = pyMinBy key x xs ∧
          ∀ j, ∀ hj : j < xs.length, j < i →
            key (pyMinBy key x xs) < key (xs.get ⟨j, hj⟩))) := by
  induction xs generalizing x with
  | nil => simp [pyMinBy]
  | cons y ys ih =>
    have hstep : pyMinBy key x (y :: ys) =
        pyMinBy key (if key y < key x then y else x) ys := rfl
    by_cases hyx : key y < key x
    · rw [hstep, if_pos hyx]
      obtain ⟨h1, h2, h3, h4⟩ := ih y
      refine ⟨?_, le_trans h2 (le_of_lt hyx), ?_, ?_⟩
      · rcases h1 with h | h
        · exact Or.inr (by rw [h]; exact List.mem_cons_self y ys)
        · exact Or.inr (List.mem_cons_of_mem y h)
      · intro z hz
        rcases List.mem_cons.mp hz with rfl | hz
        · exact h2
        · exact h3 z hz
      · refine Or.inr ⟨lt_of_le_of_lt h2 hyx, ?_⟩
        rcases h4 with h | ⟨hlt, i, hi, hget, hfirst⟩
        · refine ⟨0, by simp, ?_, ?_⟩
          · rw [h]; rfl
          · intro j hj hj0
            omega
        · refine ⟨i + 1, by simp [Nat.succ_lt_succ hi], ?_, ?_⟩
          · exact hget
          · intro j hj hji
            cases j with
            | zero => exact hlt
            | succ k =>
                exact hfirst k (by simpa using hj) (by omega)
    · rw [hstep, if_neg hyx]
      have hxy : key x ≤ key y := le_of_not_lt hyx
      obtain ⟨h1, h2, h3, h4⟩ := ih x
      refine ⟨?_, h2, ?_, ?_⟩
      · rcases h1 with h | h
        · exact Or.inl h
        · exact Or.inr (List.mem_cons_of_mem y h)
      · intro z hz
        rcases List.mem_cons.mp hz with rfl | hz
        · exact le_trans h2 hxy
        · exact h3 z hz
      · rcases h4 with h | ⟨hlt, i, hi, hget, hfirst⟩
        · exact Or.inl h
        · refine Or.inr ⟨hlt, i + 1, by simp [Nat.succ_lt_succ hi], hget, ?_⟩
          intro j hj hji
          cases j with
          | zero => exact lt_of_lt_of_le hlt hxy
          | succ k =>
              exact hfirst k (by simpa using hj) (by omega)

/-! ## Helper lemmas about the rule checkers and the alert shape -/

theorem all_map_ok (xs : List PriceData) :
    (xs.map RawRecord.ok).all rawOk = true := by
  simp [List.all_eq_true, rawOk]

theorem thirtyDayLow_notin_target (t : Option ℚ) (c : ℚ) :
    Reason.thirtyDayLow ∉ check_target t c := by
  unfold check_target
  split
  · split <;> simp
  · simp

theorem thirtyDayLow_notin_drop (th : AlertThresholds)
    (pastOpt : Option PriceData) (c : ℚ) :
    Reason.thirtyDayLow ∉ check_percent_drop th pastOpt c := by
  unfold check_percent_drop
  split
  · simp
  · split
    · simp
    · split <;> simp

theorem thirtyDayLow_notin_inventory (th : AlertThresholds) (n : ℤ) :
    Reason.thirtyDayLow ∉ check_low_inventory th n := by
  unfold check_low_inventory
  split <;> simp

theorem mem_check_thirty_some (low c : ℚ) :
    Reason.thirtyDayLow ∈ check_thirty_day_low (some low) c ↔
      (low ≠ 0 ∧ c ≤ low) := by
  simp only [check_thirty_day_low]
  split <;> simp_all

/-- When the cache for the card is hydrated and non-empty, any alert the
evaluator returns is exactly the one built from the current observation and
the four rule checkers, with the cache head as candidate previous price. -/
theorem check_cached_alert {th : AlertThresholds} {files : Files} {now : ℤ}
    {s : AlertState} {card : Card} {cur : PriceData} {cd : ℤ}
    {q : PriceData} {rest : List PriceData} {a : PriceAlert}
    (hcache : s.tracker.price_history card.get_identifier = some (q :: rest))
    (halert : (check_alert_conditions th files now s card cur cd).1 = some a) :
    ∃ p, cur.get_effective_price = some p ∧
      a = { card := card, current_price := cur,
            previous_price :=
              if (some q : Option PriceData) = some cur then none
              else some q,
            alert_reasons :=
              check_target card.target_price p
                ++ check_percent_drop th
                    (nearestInCache now th.drop_timeframe_hours (q :: rest)) p
                ++ check_thirty_day_low (lowInCache now (q :: rest)) p
                ++ check_low_inventory th cur.listing_count,
            timestamp := now } := by
  rw [check_cached th files now cur cd hcache] at halert
  split at halert
  · simp at halert
  · cases hc : cur.get_effective_price with
    | none => simp [hc] at halert
    | some p =>
        simp only [hc] at halert
        refine ⟨p, rfl, ?_⟩
        split at halert
        · simp at halert
        · split at halert
          · simp at halert
          · simpa using halert.symm

/-! ## Claim C3 -/

/-- Claim C3 (counterexample): a persisted history holding one well-formed
record and one malformed record loads as the empty sequence — the
well-formed record is not preserved, contrary to the claim. -/
theorem c3_counterexample :
    c3Files c3Card.get_identifier =
      some [RawRecord.ok c3Rec, RawRecord.bad] ∧
    (load_history c3St c3Files c3Card).1 = [] := by
  decide

/-- Claim C3 (amended): a malformed record anywhere in the persisted history
makes the whole `load_history` return the empty sequence, leaving the
in-memory cache untouched; well-formed records in the same file are not
individually preserved. -/
theorem c3_malformed_aborts_load (st : TrackerState) (files : Files)
    (card : Card) (raws : List RawRecord)
    (h1 : files card.get_identifier = some raws)
    (h2 : RawRecord.bad ∈ raws) :
    load_history st files card = ([], st) := by
  simp [load_history, h1, parseAll_bad raws h2]

/-- Witness for `c3_malformed_aborts_load` at a concrete two-record file. -/
theorem c3_malformed_aborts_load_witness :
    c3Files c3Card.get_identifier =
      some [RawRecord.ok c3Rec, RawRecord.bad] ∧
    RawRecord.bad ∈ [RawRecord.ok c3Rec, RawRecord.bad] ∧
    load_history c3St c3Files c3Card = ([], c3St) :=
  ⟨by decide, by decide,
   c3_malformed_aborts_load c3St c3Files c3Card
     [RawRecord.ok c3Rec, RawRecord.bad] (by decide) (by decide)⟩

/-! ## Claim C4 -/

/-- Claim C4 (counterexample): after a failed write, the in-memory cache for
the item key is unchanged (still the empty list, not the new observation)
and `get_latest_price` does not return the new observation. -/
theorem c4_counterexample :
    (save_price_data c4St c4Files 5000 false c4P).1.price_history
        c4P.card_id = some [] ∧
    (get_latest_price (save_price_data c4St c4Files 5000 false c4P).1
        (save_price_data c4St c4Files 5000 false c4P).2 c4Card).1 = none := by
  decide

/-- Claim C4 (amended): a failing persisted write does not raise, but it
leaves both the persisted log and the in-memory cache completely unchanged —
the cache update sits after the write inside the same `try`, so in-process
consumers do not see the new observation on write failure. -/
theorem c4_write_failure_no_update (st : TrackerState) (files : Files)
    (now : ℤ) (p : PriceData) :
    save_price_data st files now false p = (st, files) := by
  unfold save_price_data
  split
  next h => exact absurd h (by simp)
  next => simp

/-! ## Claim C5 -/

/-- Claim C5 (counterexample): with a serial number present the identifier
places the serial between the set and the rarity, not after the rarity as
claimed; an empty serial number is treated as absent. -/
theorem c5_counterexample :
    c5Card.get_identifier = "Monkey_D_Luffy_OP01_OP01-003_SR_English" ∧
    c5Card.get_identifier ≠ "Monkey_D_Luffy_OP01_SR_OP01-003_English" ∧
    c5EmptyCard.get_identifier = "C5_S_R_English" := by
  decide

/-- Claim C5 (amended): the identifier is the underscore-join of the
space-normalized name, set, serial number, rarity and language — the
(non-empty) serial number appears immediately after the set component. -/
theorem c5_serial_after_set (c : Card) (n : String) (h1 : c.number = some n)
    (h2 : n ≠ "") :
    c.get_identifier =
      joinUnderscore [replaceSpaces c.name, replaceSpaces c.set,
        replaceSpaces n, replaceSpaces c.rarity, replaceSpaces c.language] := by
  simp [Card.get_identifier, h1, h2]

/-- Witness for `c5_serial_after_set` at a concrete card. -/
theorem c5_serial_after_set_witness :
    c5Card.number = some ("OP01-003") ∧ ("OP01-003" : String) ≠ "" ∧
    c5Card.get_identifier =
      joinUnderscore [replaceSpaces c5Card.name, replaceSpaces c5Card.set,
        replaceSpaces ("OP01-003"), replaceSpaces c5Card.rarity,
        replaceSpaces c5Card.language] :=
  ⟨rfl, by decide, c5_serial_after_set c5Card ("OP01-003") rfl (by decide)⟩

/-! ## Claim C6 -/

/-- Claim C6 (counterexample): with a market price of `0` present and a
lowest-listing price of `5`, the effective price is `5`, not the market
price `0` as claimed — Python `or` treats `0.0` as falsy. -/
theorem c6_counterexample :
    c6PD.market_price = some 0 ∧ c6PD.get_effective_price = some 5 := by
  decide

/-- Claim C6 (amended): the effective price is the market price whenever it
is present and nonzero, else the lowest-listing price whenever that is
present, else undefined. -/
theorem c6_effective_price (pd : PriceData) :
    pd.get_effective_price =
      effective_price_spec pd.market_price pd.lowest_price := by
  cases h : pd.market_price with
  | none =>
      simp [PriceData.get_effective_price, effective_price_spec, truthyQ, h]
  | some m =>
      by_cases hm : m = 0 <;>
        simp [PriceData.get_effective_price, effective_price_spec, truthyQ,
          h, hm]

/-! ## Claim C7 -/

/-- Claim C7: over a non-empty hydrated history, `get_price_at_timeframe`
returns an observation minimizing the absolute time distance to the target,
and it is the first such observation in the newest-first cache order (every
earlier element has strictly larger distance); concretely, with samples 1,
5 and 10 hours old and a target of 6 hours ago, it returns the 5-hour-old
sample. -/
theorem c7_nearest :
    (∀ (st : TrackerState) (files : Files) (now : ℤ) (card : Card)
        (hours_ago : ℤ) (L : List PriceData),
        st.price_history card.get_identifier = some L → L ≠ [] →
        ∃ m, (get_price_at_timeframe st files now card hours_ago).1 = some m ∧
          m ∈ L ∧
          (∀ y ∈ L, timeDist (now - hours_ago * 3600) m ≤
            timeDist (now - hours_ago * 3600) y) ∧
          ∃ i, ∃ hi : i < L.length, L.get ⟨i, hi⟩ = m ∧
            ∀ j, ∀ hj : j < L.length, j < i →
              timeDist (now - hours_ago * 3600) m <
                timeDist (now - hours_ago * 3600) (L.get ⟨j, hj⟩)) ∧
    (get_price_at_timeframe c7St c7Files c7Now c7Card 6).1 = some c7M5 := by
  constructor
  · intro st files now card hours_ago L hcache hne
    rw [gpat_cached files now hours_ago hcache]
    cases L with
    | nil => exact absurd rfl hne
    | cons x xs =>
        obtain ⟨h1, h2, h3, h4⟩ :=
          pyMinBy_spec (timeDist (now - hours_ago * 3600)) xs x
        refine ⟨pyMinBy (timeDist (now - hours_ago * 3600)) x xs, rfl,
          ?_, ?_, ?_⟩
        · rcases h1 with h | h
          · rw [h]; exact List.mem_cons_self x xs
          · exact List.mem_cons_of_mem x h
        · intro y hy
          rcases List.mem_cons.mp hy with rfl | hy
          · exact h2
          · exact h3 y hy
        · rcases h4 with h | ⟨hlt, i, hi, hget, hfirst⟩
          · refine ⟨0, by simp, ?_, ?_⟩
            · rw [h]; rfl
            · intro j hj hj0
              omega
          · refine ⟨i + 1, ?_, hget, ?_⟩
            · simp only [List.length_cons]
              omega
            · intro j hj hji
              cases j with
              | zero => exact hlt
              | succ k => exact hfirst k (by simpa using hj) (by omega)
  · decide

/-- Witness for the universally quantified part of `c7_nearest`, at the
claim's concrete scenario (samples 1, 5 and 10 hours old, target 6 hours
ago). -/
theorem c7_nearest_witness :
    c7St.price_history c7Card.get_identifier = some [c7M1, c7M5, c7M10] ∧
    ([c7M1, c7M5, c7M10] : List PriceData) ≠ [] ∧
    (∃ m, (get_price_at_timeframe c7St c7Files c7Now c7Card 6).1 = some m ∧
      m ∈ [c7M1, c7M5, c7M10] ∧
      (∀ y ∈ [c7M1, c7M5, c7M10], timeDist (c7Now - 6 * 3600) m ≤
        timeDist (c7Now - 6 * 3600) y) ∧
      ∃ i, ∃ hi : i < ([c7M1, c7M5, c7M10] : List PriceData).length,
        ([c7M1, c7M5, c7M10] : List PriceData).get ⟨i, hi⟩ = m ∧
        ∀ j, ∀ hj : j < ([c7M1, c7M5, c7M10] : List PriceData).length, j < i →
          timeDist (c7Now - 6 * 3600) m <
            timeDist (c7Now - 6 * 3600)
              (([c7M1, c7M5, c7M10] : List PriceData).get ⟨j, hj⟩)) :=
  ⟨by decide, by decide,
   c7_nearest.1 c7St c7Files c7Now c7Card 6 [c7M1, c7M5, c7M10]
     (by decide) (by decide)⟩

/-! ## Claim C9 -/

/-- Loading from a file that was just written with well-formed records
returns those records sorted newest first, whatever the cache state. -/
theorem load_after_write (st2 : TrackerState) (files : Files) (card : Card)
    (fl : List PriceData) :
    (load_history st2
      (updateMap files card.get_identifier (fl.map RawRecord.ok)) card).1 =
      sortNewestFirst fl := by
  have hread : updateMap files card.get_identifier (fl.map RawRecord.ok)
      card.get_identifier = some (fl.map RawRecord.ok) := by
    simp [updateMap]
  simp [load_history, hread, parseAll_map_ok]

/-- Claim C9: saving an observation at time `now` over a fully well-formed
persisted log rewrites the log to exactly the old and new records with
timestamp strictly newer than `now` minus 90 days; a subsequent load
returns exactly those observations; and the in-memory cache is only
prepended to, never trimmed. -/
theorem c9_retention (st : TrackerState) (files : Files) (card : Card)
    (p : PriceData) (raws : List RawRecord) (now : ℤ)
    (hfile : files card.get_identifier = some raws)
    (hid : p.card_id = card.get_identifier)
    (hgood : ∀ r ∈ raws, rawOk r = true) :
    (save_price_data st files now true p).2 card.get_identifier =
      some (((parsedOf raws ++ [p]).filter fun x =>
        decide (now - 90 * 86400 < x.timestamp)).map RawRecord.ok) ∧
    (∀ (st2 : TrackerState) (x : PriceData),
        x ∈ (load_history st2 (save_price_data st files now true p).2 card).1
          ↔ (x ∈ parsedOf raws ++ [p] ∧ now - 90 * 86400 < x.timestamp)) ∧
    (save_price_data st files now true p).1.price_history
        card.get_identifier =
      some (p :: (st.price_history card.get_identifier).getD []) := by
  have hmap : raws = (parsedOf raws).map RawRecord.ok := allOk_eq_map raws hgood
  have happ : (parsedOf raws).map RawRecord.ok ++ [RawRecord.ok p] =
      (parsedOf raws ++ [p]).map RawRecord.ok := by simp
  have hall : (raws ++ [RawRecord.ok p]).all rawOk = true := by
    conv_lhs => rw [hmap, happ]
    exact all_map_ok _
  have hfilter : (raws ++ [RawRecord.ok p]).filter (keepRecent now) =
      ((parsedOf raws ++ [p]).filter fun x =>
        decide (now - 90 * 86400 < x.timestamp)).map RawRecord.ok := by
    conv_lhs => rw [hmap, happ]
    exact filter_keepRecent_map_ok now _
  have hsave : save_price_data st files now true p =
      (⟨updateMap st.price_history card.get_identifier
          (p :: (st.price_history card.get_identifier).getD [])⟩,
       updateMap files card.get_identifier
         (((parsedOf raws ++ [p]).filter fun x =>
            decide (now - 90 * 86400 < x.timestamp)).map RawRecord.ok)) := by
    simp only [save_price_data, hid, hfile, Option.getD_some, hall, if_true,
      hfilter]
  refine ⟨?_, ?_, ?_⟩
  · rw [hsave]
    simp [updateMap]
  · intro st2 x
    rw [hsave, load_after_write, mem_sortNewestFirst]
    simp [List.mem_filter]
    tauto
  · rw [hsave]
    simp [updateMap]

/-- Witness for `c9_retention` at a concrete log with one stale record
(dropped by the retention filter) and one fresh record (kept). -/
theorem c9_retention_witness :
    c9Files c9Card.get_identifier =
      some [RawRecord.ok c9Old1, RawRecord.ok c9Old2] ∧
    c9P.card_id = c9Card.get_identifier ∧
    (save_price_data c9St c9Files c9Now true c9P).2 c9Card.get_identifier =
      some (List.map RawRecord.ok
        (List.filter (fun x => decide (c9Now - 90 * 86400 < x.timestamp))
          (parsedOf [RawRecord.ok c9Old1, RawRecord.ok c9Old2] ++ [c9P]))) ∧
    (c9Old2 ∈
        (load_history c9St (save_price_data c9St c9Files c9Now true c9P).2
          c9Card).1 ↔
      (c9Old2 ∈ parsedOf [RawRecord.ok c9Old1, RawRecord.ok c9Old2] ++ [c9P] ∧
        c9Now - 90 * 86400 < c9Old2.timestamp)) ∧
    (save_price_data c9St c9Files c9Now true c9P).1.price_history
        c9Card.get_identifier =
      some (c9P :: (c9St.price_history c9Card.get_identifier).getD []) :=
  ⟨by decide, by decide,
   (c9_retention c9St c9Files c9Card c9P
     [RawRecord.ok c9Old1, RawRecord.ok c9Old2] c9Now (by decide) (by decide)
     (by decide)).1,
   (c9_retention c9St c9Files c9Card c9P
     [RawRecord.ok c9Old1, RawRecord.ok c9Old2] c9Now (by decide) (by decide)
     (by decide)).2.1 c9St c9Old2,
   (c9_retention c9St c9Files c9Card c9P
     [RawRecord.ok c9Old1, RawRecord.ok c9Old2] c9Now (by decide) (by decide)
     (by decide)).2.2⟩

/-! ## Claim C1 -/

/-- Claim C1 (counterexample): with a spike-suppression threshold of `-100`
percent, a spike-window baseline of positive effective price `10` and a
current effective price of `0`, the spike percentage `-100` meets the
threshold and trigger rules fire, yet the evaluator returns an alert and
advances the cooldown timestamp — suppression is skipped because a zero
current effective price is falsy in `_is_price_spike`. -/
theorem c1_counterexample :
    (get_price_at_timeframe c1S.tracker c1Files c1Now c1Card c1Th.spike_ignore_hours).1 = some c1Past ∧
    c1Past.get_effective_price = some 10 ∧
    c1Cur.get_effective_price = some 0 ∧
    c1Th.spike_ignore_percent ≤ ((0 : ℚ) - 10) / 10 * 100 ∧
    (check_alert_conditions c1Th c1Files c1Now c1S c1Card c1Cur 6).1.isSome = true ∧
    (check_alert_conditions c1Th c1Files c1Now c1S c1Card c1Cur 6).2.last_alert_times c1Card.get_identifier = some c1Now := by
  refine ⟨by decide, by decide, by decide, by norm_num [c1Th], ?_, ?_⟩ <;>
    norm_num [check_alert_conditions, cooldown_active, get_price_at_timeframe,
    get_30_day_low, get_latest_price, load_history, nearestInCache,
    lowInCache, pyMinBy, timeDist, spikeInCache, is_price_spike,
    spike_decision, check_target, check_percent_drop, check_thirty_day_low,
    check_low_inventory, PriceData.get_effective_price, truthyQ, updateMap,
    List.filterMap_cons, List.filterMap_nil,
    c1Th, c1Files, c1Now, c1S, c1Card, c1Cur, c1Past]

/-- Claim C1 (amended): when the current effective price is positive and the
observation nearest to `now` minus the spike window has a positive effective
price whose spike percentage meets the suppression threshold, the evaluation
returns no alert and the cooldown map is left unchanged, even if trigger
rules fired. -/
theorem c1_spike_suppression (th : AlertThresholds) (files : Files)
    (now : ℤ) (s : AlertState) (card : Card) (cur : PriceData) (cd : ℤ)
    (L : List PriceData) (pd : PriceData) (pNow pPast : ℚ)
    (hcache : s.tracker.price_history card.get_identifier = some L)
    (hcur : cur.get_effective_price = some pNow) (hpos : 0 < pNow)
    (hnear : (get_price_at_timeframe s.tracker files now card th.spike_ignore_hours).1 = some pd)
    (hpast : pd.get_effective_price = some pPast) (hppos : 0 < pPast)
    (hspike : th.spike_ignore_percent ≤ (pNow - pPast) / pPast * 100) :
    (check_alert_conditions th files now s card cur cd).1 = none ∧
    (check_alert_conditions th files now s card cur cd).2.last_alert_times =
      s.last_alert_times := by
  rw [gpat_cached files now th.spike_ignore_hours hcache] at hnear
  have hnear2 : nearestInCache now th.spike_ignore_hours L = some pd := hnear
  obtain ⟨q, rest, rfl⟩ : ∃ q rest, L = q :: rest := by
    cases L with
    | nil => simp [nearestInCache] at hnear2
    | cons q rest => exact ⟨q, rest, rfl⟩
  have hsp : spikeInCache th now (q :: rest) cur = true := by
    simp only [spikeInCache, hcur]
    rw [if_neg (ne_of_gt hpos)]
    rw [hnear2]
    simp only [spike_decision, hpast]
    rw [if_neg (ne_of_gt hppos)]
    exact decide_eq_true hspike
  rw [check_cached th files now cur cd hcache]
  by_cases hgate :
      cooldown_active (s.last_alert_times card.get_identifier) now cd = true
  · simp [hgate]
  · simp [hgate, hcur, hsp]

/-- Witness for `c1_spike_suppression`: a 40 percent jump over the 6-hour
baseline (140 over 100) with the low-inventory rule firing yields no alert
and an unchanged cooldown map. -/
theorem c1_spike_suppression_witness :
    c1WS.tracker.price_history c1Card.get_identifier = some [c1WPast] ∧
    c1WCur.get_effective_price = some 140 ∧ (0 : ℚ) < 140 ∧
    (get_price_at_timeframe c1WS.tracker c1Files c1Now c1Card c1WTh.spike_ignore_hours).1 = some c1WPast ∧
    c1WPast.get_effective_price = some 100 ∧ (0 : ℚ) < 100 ∧
    c1WTh.spike_ignore_percent ≤ ((140 : ℚ) - 100) / 100 * 100 ∧
    (check_alert_conditions c1WTh c1Files c1Now c1WS c1Card c1WCur 6).1 = none ∧
    (check_alert_conditions c1WTh c1Files c1Now c1WS c1Card c1WCur 6).2.last_alert_times = c1WS.last_alert_times :=
  ⟨by decide, by decide, by decide, by decide, by decide, by decide,
   by norm_num [c1WTh],
   (c1_spike_suppression c1WTh c1Files c1Now c1WS c1Card c1WCur 6 [c1WPast]
     c1WPast 140 100 (by decide) (by decide) (by decide) (by decide)
     (by decide) (by decide) (by norm_num [c1WTh])).1,
   (c1_spike_suppression c1WTh c1Files c1Now c1WS c1Card c1WCur 6 [c1WPast]
     c1WPast 140 100 (by decide) (by decide) (by decide) (by decide)
     (by decide) (by decide) (by norm_num [c1WTh])).2⟩

/-! ## Claim C2 -/

/-- Claim C2: after an alert for a card at time `t0` with cooldown duration
`d` hours, every evaluation for that card with `now` in `[t0, t0 + d)`
(whatever the thresholds, files or current observation) returns no alert
and leaves the whole evaluator state unchanged; at `now = t0 + d` the
cooldown gate no longer blocks. -/
theorem c2_cooldown (th : AlertThresholds) (files : Files) (t0 : ℤ)
    (s : AlertState) (card : Card) (cur : PriceData) (d : ℤ) (a : PriceAlert)
    (halert : (check_alert_conditions th files t0 s card cur d).1 = some a) :
    (∀ (th2 : AlertThresholds) (files2 : Files) (now : ℤ) (cur2 : PriceData),
        t0 ≤ now → now - t0 < d * 3600 →
        check_alert_conditions th2 files2 now
            (check_alert_conditions th files t0 s card cur d).2 card cur2 d =
          (none, (check_alert_conditions th files t0 s card cur d).2)) ∧
    cooldown_active
      ((check_alert_conditions th files t0 s card cur d).2.last_alert_times
        card.get_identifier) (t0 + d * 3600) d = false := by
  rcases check_result_cases th files t0 s card cur d with h | hupd
  · rw [halert] at h
    exact absurd h (by simp)
  · have hts : (check_alert_conditions th files t0 s card cur d).2.last_alert_times card.get_identifier = some t0 := by
      rw [hupd]
      simp [updateMap]
    constructor
    · intro th2 files2 now cur2 h1 h2
      apply check_blocked
      rw [hts]
      simp only [cooldown_active]
      exact decide_eq_true h2
    · rw [hts]
      simp only [cooldown_active]
      have hlt : ¬(t0 + d * 3600 - t0 < d * 3600) := by omega
      simp [hlt]

/-- The C2 concrete scenario produces its expected alert. -/
theorem c2_alert_fires :
    (check_alert_conditions c2Th c2Files c2T0 c2S c2Card c2Cur 6).1 =
      some c2Alert := by
  norm_num [check_alert_conditions, cooldown_active, get_price_at_timeframe,
    get_30_day_low, get_latest_price, load_history, nearestInCache,
    lowInCache, pyMinBy, timeDist, spikeInCache, is_price_spike,
    spike_decision, check_target, check_percent_drop, check_thirty_day_low,
    check_low_inventory, PriceData.get_effective_price, truthyQ, updateMap,
    List.filterMap_cons, List.filterMap_nil,
    c2Th, c2Files, c2T0, c2S, c2Card, c2Cur, c2Past, c2Alert]

/-- Witness for `c2_cooldown`: a target-price alert at `t0`, a blocked call
one hour later, and an open gate at exactly `t0 + 6` hours. -/
theorem c2_cooldown_witness :
    (check_alert_conditions c2Th c2Files c2T0 c2S c2Card c2Cur 6).1 = some c2Alert ∧
    check_alert_conditions c2Th c2Files (c2T0 + 3600)
        (check_alert_conditions c2Th c2Files c2T0 c2S c2Card c2Cur 6).2 c2Card
        c2Cur 6 =
      (none, (check_alert_conditions c2Th c2Files c2T0 c2S c2Card c2Cur 6).2) ∧
    cooldown_active
      ((check_alert_conditions c2Th c2Files c2T0 c2S c2Card c2Cur 6).2.last_alert_times
        c2Card.get_identifier) (c2T0 + 6 * 3600) 6 = false :=
  ⟨c2_alert_fires,
   (c2_cooldown c2Th c2Files c2T0 c2S c2Card c2Cur 6 c2Alert c2_alert_fires).1
     c2Th c2Files (c2T0 + 3600) c2Cur (by decide) (by decide),
   (c2_cooldown c2Th c2Files c2T0 c2S c2Card c2Cur 6 c2Alert c2_alert_fires).2⟩

/-! ## Claim C8 -/

/-- Claim C8 (counterexample): with a defined 30-day minimum of `0` and a
current effective price of `0` (so `P_now ≤ min`), the evaluator returns no
alert at all — the 30-day-low rule contributes no reason because a zero
minimum is falsy, contrary to the claim's "including a minimum of 0". -/
theorem c8_counterexample :
    (get_30_day_low c8zS.tracker c8Files c8Now c8zCard).1 = some 0 ∧
    c8zCur.get_effective_price = some 0 ∧ (0 : ℚ) ≤ 0 ∧
    (check_alert_conditions c8Th c8Files c8Now c8zS c8zCard c8zCur 6).1 =
      none := by
  decide

/-- Claim C8 (amended): whenever an alert is produced and the 30-day
minimum effective price is defined, the 30-day-low reason is among the
alert's reasons exactly when that minimum is nonzero and the current
effective price is less than or equal to it (ties included, in particular
when the current observation itself defines the low). -/
theorem c8_thirty_day_low_rule (th : AlertThresholds) (files : Files)
    (now : ℤ) (s : AlertState) (card : Card) (cur : PriceData) (cd : ℤ)
    (L : List PriceData) (low p : ℚ) (a : PriceAlert)
    (hcache : s.tracker.price_history card.get_identifier = some L)
    (hcur : cur.get_effective_price = some p)
    (hlow : (get_30_day_low s.tracker files now card).1 = some low)
    (halert : (check_alert_conditions th files now s card cur cd).1 = some a) :
    (Reason.thirtyDayLow ∈ a.alert_reasons ↔ (low ≠ 0 ∧ p ≤ low)) := by
  rw [g30_cached files now hcache] at hlow
  have hlow2 : lowInCache now L = some low := hlow
  obtain ⟨q, rest, rfl⟩ : ∃ q rest, L = q :: rest := by
    cases L with
    | nil => simp [lowInCache] at hlow2
    | cons q rest => exact ⟨q, rest, rfl⟩
  obtain ⟨p2, hp2, ha⟩ := check_cached_alert hcache halert
  have hpp : p2 = p := by
    rw [hcur] at hp2
    exact (Option.some.inj hp2).symm
  subst hpp
  rw [ha]
  simp [List.mem_append, thirtyDayLow_notin_target, thirtyDayLow_notin_drop,
    thirtyDayLow_notin_inventory, hlow2, mem_check_thirty_some]

/-- The C8 concrete scenario produces its expected alert. -/
theorem c8_alert_fires :
    (check_alert_conditions c8Th c8Files c8Now c8S c8Card c8Cur 6).1 =
      some c8Alert := by
  norm_num [check_alert_conditions, cooldown_active, get_price_at_timeframe,
    get_30_day_low, get_latest_price, load_history, nearestInCache,
    lowInCache, pyMinBy, timeDist, spikeInCache, is_price_spike,
    spike_decision, check_target, check_percent_drop, check_thirty_day_low,
    check_low_inventory, PriceData.get_effective_price, truthyQ, updateMap,
    List.filterMap_cons, List.filterMap_nil,
    c8Th, c8Files, c8Now, c8S, c8Card, c8Cur, c8Q1, c8Q2, c8Q3, c8Q4,
    c8Alert]

/-- Witness for `c8_thirty_day_low_rule`: history of effective prices
`[52, 48, 55, 48]` within 30 days and a current price of `48` tying the
minimum — the produced alert carries the 30-day-low reason. -/
theorem c8_thirty_day_low_rule_witness :
    c8S.tracker.price_history c8Card.get_identifier =
      some [c8Q1, c8Q2, c8Q3, c8Q4] ∧
    c8Cur.get_effective_price = some 48 ∧
    (get_30_day_low c8S.tracker c8Files c8Now c8Card).1 = some 48 ∧
    (check_alert_conditions c8Th c8Files c8Now c8S c8Card c8Cur 6).1 =
      some c8Alert ∧
    (Reason.thirtyDayLow ∈ c8Alert.alert_reasons ↔
      ((48 : ℚ) ≠ 0 ∧ (48 : ℚ) ≤ 48)) :=
  ⟨by decide, by decide, by decide, c8_alert_fires,
   c8_thirty_day_low_rule c8Th c8Files c8Now c8S c8Card c8Cur 6
     [c8Q1, c8Q2, c8Q3, c8Q4] 48 48 c8Alert (by decide) (by decide)
     (by decide) c8_alert_fires⟩

/-! ## Claim C10 -/

/-- Claim C10: when the store's cached history is non-empty, any alert the
evaluator produces has an undefined previous observation whenever the cache
head (the store's latest observation) equals the current observation — as
in the batch flow, which appends the observation before evaluating — and a
defined previous observation can only be the cache head and only when it
differs from the current observation. -/
theorem c10_previous_price (th : AlertThresholds) (files : Files) (now : ℤ)
    (s : AlertState) (card : Card) (cur : PriceData) (cd : ℤ)
    (q : PriceData) (rest : List PriceData) (a : PriceAlert)
    (hcache : s.tracker.price_history card.get_identifier = some (q :: rest))
    (halert : (check_alert_conditions th files now s card cur cd).1 = some a) :
    (q = cur → a.previous_price = none) ∧
    (∀ pp, a.previous_price = some pp → pp = q ∧ pp ≠ cur) := by
  obtain ⟨p, hp, ha⟩ := check_cached_alert hcache halert
  constructor
  · intro hq
    rw [ha]
    simp [hq]
  · intro pp hpp
    rw [ha] at hpp
    by_cases hqc : q = cur
    · simp [hqc] at hpp
    · simp [hqc] at hpp
      refine ⟨hpp.symm, ?_⟩
      rw [← hpp]
      exact hqc

/-- The C10 concrete scenario produces its expected alert. -/
theorem c10_alert_fires :
    (check_alert_conditions c10Th c10Files c10Now c10S c10Card c10Cur 6).1 =
      some c10Alert := by
  norm_num [check_alert_conditions, cooldown_active, get_price_at_timeframe,
    get_30_day_low, get_latest_price, load_history, nearestInCache,
    lowInCache, pyMinBy, timeDist, spikeInCache, is_price_spike,
    spike_decision, check_target, check_percent_drop, check_thirty_day_low,
    check_low_inventory, PriceData.get_effective_price, truthyQ, updateMap,
    List.filterMap_cons, List.filterMap_nil,
    c10Th, c10Files, c10Now, c10S, c10Card, c10Cur, c10Alert]

/-- Witness for `c10_previous_price`: the batch-flow shape where the cache
head is the current observation itself — the produced alert has no previous
observation. -/
theorem c10_previous_price_witness :
    c10S.tracker.price_history c10Card.get_identifier = some [c10Cur] ∧
    (check_alert_conditions c10Th c10Files c10Now c10S c10Card c10Cur 6).1 =
      some c10Alert ∧
    c10Alert.previous_price = none :=
  ⟨by decide, c10_alert_fires,
   (c10_previous_price c10Th c10Files c10Now c10S c10Card c10Cur 6 c10Cur []
     c10Alert (by decide) c10_alert_fires).1 rfl⟩
